import Mathlib

/-!
Verification of the two-stage cluster-sampling bookkeeping component of the
island mobility study repository (`src/islands_sampling.py`).

The Python class `IslandsSampler` is embedded as a pure state-transition
system over `SamplerState`.  Python's global `random` module is modelled as
an explicit generator state (`Nat`) threaded through the operations; each
stochastic operation re-seeds it (`random.seed(...)` in the source) before
drawing, exactly as the source does.  Python's built-in `set` is modelled as
an insertion-ordered duplicate-free list; `dict` as an association list with
fixed keys; exceptions (`KeyError`, `ZeroDivisionError`) as `Except`;
`datetime.now()` as an explicit `now` argument; `int()` on a nonnegative
float as truncation toward zero.
-/

/-- Errors the Python interpreter can raise on the paths exercised by the
sampler: dictionary lookup of a missing key, and division by zero. -/
inductive PyError where
  | keyError
  | zeroDivisionError
deriving DecidableEq

/-- Model of the pseudorandom generator backing Python's `random` module:
a linear congruential step on a `Nat` state. -/
def rngStep (g : Nat) : Nat :=
  (g * 1103515245 + 12345) % 2147483648

/-- Draw a number below `n` (for `n > 0`) and return the advanced state. -/
def randBelow (g n : Nat) : Nat × Nat :=
  let g' := rngStep g
  (g' % n, g')

/-- Model of Python's string `hash`, used by the source in
`random.seed(self.random_seed + hash(village))`. -/
def pyHash (s : String) : Int :=
  Int.ofNat (s.data.foldl (fun a c => (a * 31 + c.toNat) % 2305843009213693951) 7)

/-- Model of `random.seed(i)`: map the integer seed to a generator state. -/
def mkRng (i : Int) : Nat :=
  (i % 2147483647).toNat

/-- Model of `random.sample(l, k)` (and, with `k = l.length`, of
`random.shuffle`): repeatedly draw an index into the remaining list, emit
that element, and recurse on the list with it removed. -/
def sampleAux {α : Type} : Nat → List α → Nat → List α × Nat
  | 0, _, g => ([], g)
  | _ + 1, [], g => ([], g)
  | k + 1, x :: xs, g =>
    let p := randBelow g (x :: xs).length
    let chosen := (x :: xs).getD p.1 x
    let rest := (x :: xs).eraseIdx p.1
    let q := sampleAux k rest p.2
    (chosen :: q.1, q.2)

/-- Model of `random.shuffle`: a full-length sample without replacement. -/
def pyShuffle {α : Type} (l : List α) (g : Nat) : List α × Nat :=
  sampleAux l.length l g

/-- Association-list lookup, modelling Python `dict` read access. -/
def lookupA {α : Type} (k : String) : List (String × α) → Option α
  | [] => none
  | (k', v) :: rest => if k = k' then some v else lookupA k rest

/-- Association-list update of an existing key, modelling Python `dict`
assignment (keys of the sampler's dicts are fixed at construction). -/
def updateA {α : Type} (k : String) (v : α) : List (String × α) → List (String × α)
  | [] => []
  | (k', v') :: rest => if k = k' then (k, v) :: rest else (k', v') :: updateA k v rest

/-- One discovered person, mirroring the dict literal built by
`add_potential_participant` in the source. -/
structure Candidate where
  village : String
  name : String
  house_number : String
  age : Option Int
  contacted : Bool
  consented : Option Bool
  tug_time : Option Rat
  timestamp : Option Nat
  selected_in_stage1 : Bool
  selected_in_stage2 : Bool
deriving DecidableEq

/-- The mutable state of an `IslandsSampler` instance. -/
structure SamplerState where
  villages : List String
  target_per_village : Nat
  houses_per_village : Nat
  participants : List Candidate
  potential_participants : List (String × List Candidate)
  selected_houses : List (String × List String)
  house_registry : List (String × List String)
  random_seed : Int
deriving DecidableEq

/-- `IslandsSampler.__init__`: fixed village set, target 20 per village,
empty tracking dicts keyed by the three villages. -/
def initState (seed : Int) (hpv : Nat) : SamplerState :=
  { villages := ["Vardo", "Colmar", "Arcadia"]
    target_per_village := 20
    houses_per_village := hpv
    participants := []
    potential_participants := [("Vardo", []), ("Colmar", []), ("Arcadia", [])]
    selected_houses := [("Vardo", []), ("Colmar", []), ("Arcadia", [])]
    house_registry := [("Vardo", []), ("Colmar", []), ("Arcadia", [])]
    random_seed := seed }

/-- `__init__` also runs `random.seed(self.random_seed)` on the global
generator. -/
def initRng (seed : Int) : Nat :=
  mkRng seed

/-- `add_house_to_registry`: if the village is a known key, add the house to
its registry set (no-op when already present); silently do nothing for an
unknown village. -/
def add_house_to_registry (s : SamplerState) (village house : String) : SamplerState :=
  match lookupA village s.house_registry with
  | none => s
  | some hs =>
    { s with house_registry :=
        updateA village (if house ∈ hs then hs else hs ++ [house]) s.house_registry }

/-- `add_potential_participant`: register the house, then append a fresh
candidate record to the village's list; an unknown village raises `KeyError`
on the dict access `self.potential_participants[village]`. -/
def add_potential_participant (s : SamplerState) (village name house : String)
    (age : Option Int) : Except PyError SamplerState :=
  let s1 := add_house_to_registry s village house
  match lookupA village s1.potential_participants with
  | none => .error .keyError
  | some lst =>
    let cand : Candidate := ⟨village, name, house, age, false, none, none, none, false, false⟩
    .ok { s1 with potential_participants := updateA village (lst ++ [cand]) s1.potential_participants }

/-- `select_houses_for_sampling` (Stage 1): list the registered houses; if
none, warn and return an empty selection without storing anything; otherwise
re-seed the generator from `random_seed + hash(village)` and sample
`min(houses_per_village, len(available))` houses, storing and returning the
selection. -/
def select_houses_for_sampling (s : SamplerState) (village : String) (g : Nat) :
    Except PyError (List String × SamplerState × Nat) :=
  match lookupA village s.house_registry with
  | none => .error .keyError
  | some available =>
    if available = [] then .ok ([], s, g)
    else
      let k := min s.houses_per_village available.length
      let g1 := mkRng (s.random_seed + pyHash village)
      let q := sampleAux k available g1
      .ok (q.1, { s with selected_houses := updateA village q.1 s.selected_houses }, q.2)

/-- Mark a candidate whose house was selected in Stage 1: the source sets
`selected_in_stage1` while collecting and `selected_in_stage2` during the
per-house loop; candidates outside the selection keep their flags. -/
def markFlags (sel : List String) (c : Candidate) : Candidate :=
  if c.house_number ∈ sel then
    { c with selected_in_stage1 := true, selected_in_stage2 := true }
  else c

/-- Group the Stage-1 participants by house, keeping first-occurrence house
order and within-house discovery order, as Python dict insertion does. -/
def insertByHouse (gs : List (String × List Candidate)) (c : Candidate) :
    List (String × List Candidate) :=
  match gs with
  | [] => [(c.house_number, [c])]
  | (h, ps) :: rest =>
    if h = c.house_number then (h, ps ++ [c]) :: rest
    else (h, ps) :: insertByHouse rest c

/-- Build the per-house grouping of the eligible candidates. -/
def groupByHouse (l : List Candidate) : List (String × List Candidate) :=
  l.foldl insertByHouse []

/-- Stage-2 per-house loop: a single occupant is taken as-is (no generator
draw), several occupants are shuffled; the per-house blocks are concatenated
in house order. -/
def stageTwoLoop : List (String × List Candidate) → Nat → List Candidate × Nat
  | [], g => ([], g)
  | (_, people) :: rest, g =>
    if people.length = 1 then
      let q := stageTwoLoop rest g
      (people ++ q.1, q.2)
    else
      let p := pyShuffle people g
      let q := stageTwoLoop rest p.2
      (p.1 ++ q.1, q.2)

/-- The Stage-2 body run once the candidate list and the stored selection are
in hand: flag the eligible candidates, group them by house, re-seed from
`random_seed + hash(village) + 100`, shuffle within houses, then shuffle the
concatenated list once more for the final contact order. -/
def stageTwoCore (s1 : SamplerState) (village : String) (lst : List Candidate)
    (sel : List String) : List Candidate × SamplerState × Nat :=
  let updated := lst.map (markFlags sel)
  let eligible := updated.filter (fun c => decide (c.house_number ∈ sel))
  let groups := groupByHouse eligible
  let g2 := mkRng (s1.random_seed + pyHash village + 100)
  let p := stageTwoLoop groups g2
  let q := pyShuffle p.1 p.2
  (q.1,
   { s1 with potential_participants := updateA village updated s1.potential_participants },
   q.2)

/-- `generate_two_stage_sampling_order` (Stage 2 / contact order): unknown
village returns an empty order; an empty stored selection first runs Stage 1;
then the Stage-2 body produces the contact order. -/
def generate_two_stage_sampling_order (s : SamplerState) (village : String) (g : Nat) :
    Except PyError (List Candidate × SamplerState × Nat) :=
  match lookupA village s.potential_participants with
  | none => .ok ([], s, g)
  | some _ =>
    match lookupA village s.selected_houses with
    | none => .error .keyError
    | some sel0 =>
      match (if sel0 = [] then
               (select_houses_for_sampling s village g).map (fun x => x.2)
             else .ok (s, g)) with
      | .error e => .error e
      | .ok (s1, _) =>
        match lookupA village s1.potential_participants,
              lookupA village s1.selected_houses with
        | some lst, some sel => .ok (stageTwoCore s1 village lst sel)
        | some _, none => .error .keyError
        | none, _ => .error .keyError

/-- Walk the village's candidate list looking for the first name match; on a
match set the contact fields (and, when consented, overwrite `age` and
`tug_time` with the call's arguments) and return the updated list together
with the copy appended to `participants`; the loop `break`s after the first
match, and finding nothing changes nothing. -/
def recordInList (now : Nat) (name : String) (consented : Bool) (age : Option Int)
    (tug : Option Rat) : List Candidate → List Candidate × Option Candidate
  | [] => ([], none)
  | p :: rest =>
    if p.name = name then
      let p1 := { p with contacted := true, consented := some consented,
                         timestamp := some now }
      let p2 := if consented then { p1 with age := age, tug_time := tug } else p1
      (p2 :: rest, if consented then some p2 else none)
    else
      let q := recordInList now name consented age tug rest
      (p :: q.1, q.2)

/-- `record_contact_attempt`: look up the village (unknown raises `KeyError`),
update the first candidate matching the name, and append a copy of the
mutated record to `participants` when consent was given. -/
def record_contact_attempt (s : SamplerState) (now : Nat) (village name : String)
    (consented : Bool) (age : Option Int) (tug : Option Rat) :
    Except PyError SamplerState :=
  match lookupA village s.potential_participants with
  | none => .error .keyError
  | some lst =>
    let q := recordInList now name consented age tug lst
    .ok { s with
          potential_participants := updateA village q.1 s.potential_participants,
          participants := s.participants ++ q.2.toList }

/-- `export_data`: with no participants the method prints a message and
returns early, writing nothing and raising nothing (`none`); otherwise the
participant rows are written, one per participant (`some rows`). -/
def export_data (s : SamplerState) : Option (List Candidate) :=
  if s.participants = [] then none else some s.participants

/-- Follows the spec's words for `export()` ("fails with `NothingToExportError`
if zero Participants exist"), for comparison with `export_data`. -/
inductive SpecError where
  | candidateNotFound
  | nothingToExport
deriving DecidableEq

/-- Follows the spec's words: export fails with `NothingToExportError` when
the finalized list is empty, otherwise serializes it. -/
def export_specModel (s : SamplerState) : Except SpecError (List Candidate) :=
  if s.participants = [] then .error .nothingToExport else .ok s.participants

/-- Follows the spec's words for `record_outcome`: "Fails with
`CandidateNotFoundError` if no match", for comparison with
`record_contact_attempt`. -/
def record_outcome_specModel (s : SamplerState) (now : Nat) (village name : String)
    (consented : Bool) (age : Option Int) (tug : Option Rat) :
    Except SpecError SamplerState :=
  match lookupA village s.potential_participants with
  | none => .error .candidateNotFound
  | some lst =>
    if lst.all (fun p => p.name ≠ name) then .error .candidateNotFound
    else
      let q := recordInList now name consented age tug lst
      .ok { s with
            potential_participants := updateA village q.1 s.potential_participants,
            participants := s.participants ++ q.2.toList }

/-- Published demographics of one village (`VILLAGE_DATA` values). -/
structure VillageInfo where
  houses : Nat
  population : Nat
deriving DecidableEq

/-- The module-level `VILLAGE_DATA` table. -/
def VILLAGE_DATA (v : String) : Option VillageInfo :=
  if v = "Vardo" then some ⟨762, 1790⟩
  else if v = "Colmar" then some ⟨2299, 5650⟩
  else if v = "Arcadia" then some ⟨2101, 5308⟩
  else none

/-- Python's `int()` applied to a rational: truncation toward zero. -/
def truncQ (q : Rat) : Int :=
  if 0 ≤ q then ⌊q⌋ else ⌈q⌉

/-- Body of `calculate_sampling_strategy` once the village row is in hand:
`avg = population / houses` (raising `ZeroDivisionError` when `houses = 0`),
`participants_needed = target / response_rate` (raising when the rate is 0),
then `int(participants_needed / avg) + 2` (raising when `avg = 0`). -/
def calc_strategy_core (info : VillageInfo) (target rr : Rat) :
    Except PyError (Int × Rat) :=
  if (info.houses : Rat) = 0 then .error .zeroDivisionError
  else
    let avg : Rat := (info.population : Rat) / (info.houses : Rat)
    if rr = 0 then .error .zeroDivisionError
    else
      let pn := target / rr
      if avg = 0 then .error .zeroDivisionError
      else .ok (truncQ (pn / avg) + 2, avg)

/-- `calculate_sampling_strategy`: look the village up in `VILLAGE_DATA`
(unknown raises `KeyError`) and run the arithmetic body; the function
performs no validation of its own on the response rate. -/
def calculate_sampling_strategy (v : String) (target rr : Rat) :
    Except PyError (Int × Rat) :=
  match VILLAGE_DATA v with
  | none => .error .keyError
  | some info => calc_strategy_core info target rr

/-- One `register_candidate` call, for replaying registration sequences. -/
structure RegCall where
  village : String
  name : String
  house : String
  age : Option Int
deriving DecidableEq

/-- Replay a sequence of `add_potential_participant` calls on a fresh
sampler constructed with the given seed and houses-per-village. -/
def runRegisters (seed : Int) (hpv : Nat) (calls : List RegCall) :
    Except PyError SamplerState :=
  calls.foldlM
    (fun s c => add_potential_participant s c.village c.name c.house c.age)
    (initState seed hpv)

/-- Forget the generator component of an operation's result, keeping the
returned value and the roster state. -/
def dropRng {α : Type} (x : α × SamplerState × Nat) : α × SamplerState :=
  (x.1, x.2.1)

/-! ### Lemmas about the generator-driven sampling primitives -/

theorem sampleAux_cons_eq {α : Type} (k : Nat) (x : α) (xs : List α) (g : Nat) :
    sampleAux (k + 1) (x :: xs) g =
      (((x :: xs).getD (randBelow g (x :: xs).length).1 x) ::
         (sampleAux k ((x :: xs).eraseIdx (randBelow g (x :: xs).length).1)
            (randBelow g (x :: xs).length).2).1,
       (sampleAux k ((x :: xs).eraseIdx (randBelow g (x :: xs).length).1)
          (randBelow g (x :: xs).length).2).2) := rfl

theorem randBelow_fst_lt (g n : Nat) (hn : 0 < n) : (randBelow g n).1 < n := by
  simp only [randBelow]
  exact Nat.mod_lt _ hn

theorem getElem_cons_eraseIdx_perm {α : Type} :
    ∀ (l : List α) (i : Nat) (h : i < l.length), List.Perm (l[i] :: l.eraseIdx i) l := by
  intro l
  induction l with
  | nil => intro i h; simp at h
  | cons x xs ih =>
    intro i h
    cases i with
    | zero => simp
    | succ j =>
      have hj : j < xs.length := by simpa using h
      have step : List.Perm (xs[j] :: x :: xs.eraseIdx j) (x :: xs[j] :: xs.eraseIdx j) :=
        List.Perm.swap _ _ _
      exact step.trans ((ih j hj).cons x)

theorem getD_mem_of_ne_nil {α : Type} (x : α) (xs : List α) (i : Nat) :
    (x :: xs).getD i x ∈ x :: xs := by
  by_cases h : i < (x :: xs).length
  · rw [List.getD_eq_getElem _ _ h]
    exact List.getElem_mem h
  · rw [List.getD_eq_default _ _ (Nat.le_of_not_lt h)]
    exact List.mem_cons_self x xs

theorem sampleAux_subset {α : Type} :
    ∀ (k : Nat) (l : List α) (g : Nat), (sampleAux k l g).1 ⊆ l := by
  intro k
  induction k with
  | zero => intro l g; simp [sampleAux]
  | succ k ih =>
    intro l g
    cases l with
    | nil => simp [sampleAux]
    | cons x xs =>
      rw [sampleAux_cons_eq]
      intro y hy
      rcases List.mem_cons.mp hy with hy | hy
      · rw [hy]; exact getD_mem_of_ne_nil x xs _
      · have := ih _ _ hy
        exact List.Sublist.mem this (List.eraseIdx_sublist _ _)

theorem sampleAux_length {α : Type} :
    ∀ (k : Nat) (l : List α) (g : Nat), (sampleAux k l g).1.length = min k l.length := by
  intro k
  induction k with
  | zero => intro l g; simp [sampleAux]
  | succ k ih =>
    intro l g
    cases l with
    | nil => simp [sampleAux]
    | cons x xs =>
      rw [sampleAux_cons_eq]
      have hi : (randBelow g (x :: xs).length).1 < (x :: xs).length :=
        randBelow_fst_lt _ _ (by simp)
      have hlen := List.length_eraseIdx_add_one hi
      rw [List.length_cons, ih]
      omega

theorem sampleAux_nodup {α : Type} :
    ∀ (k : Nat) (l : List α) (g : Nat), l.Nodup → (sampleAux k l g).1.Nodup := by
  intro k
  induction k with
  | zero => intro l g _; simp [sampleAux]
  | succ k ih =>
    intro l g hnd
    cases l with
    | nil => simp [sampleAux]
    | cons x xs =>
      rw [sampleAux_cons_eq]
      have hi : (randBelow g (x :: xs).length).1 < (x :: xs).length :=
        randBelow_fst_lt _ _ (by simp)
      have hrest : ((x :: xs).eraseIdx (randBelow g (x :: xs).length).1).Nodup :=
        (List.eraseIdx_sublist _ _).nodup hnd
      refine List.nodup_cons.mpr ⟨?_, ih _ _ hrest⟩
      rw [List.getD_eq_getElem _ _ hi]
      intro hmem
      have hmem' : (x :: xs)[(randBelow g (x :: xs).length).1] ∈
          (x :: xs).eraseIdx (randBelow g (x :: xs).length).1 :=
        sampleAux_subset _ _ _ hmem
      have hperm := getElem_cons_eraseIdx_perm (x :: xs) _ hi
      have : ((x :: xs)[(randBelow g (x :: xs).length).1] ::
          (x :: xs).eraseIdx (randBelow g (x :: xs).length).1).Nodup :=
        hperm.nodup_iff.mpr hnd
      exact (List.nodup_cons.mp this).1 hmem'

theorem sampleAux_perm {α : Type} :
    ∀ (k : Nat) (l : List α) (g : Nat), l.length ≤ k → List.Perm (sampleAux k l g).1 l := by
  intro k
  induction k with
  | zero =>
    intro l g hl
    have : l = [] := List.length_eq_zero.mp (Nat.le_zero.mp hl)
    subst this; simp [sampleAux]
  | succ k ih =>
    intro l g hl
    cases l with
    | nil => simp [sampleAux]
    | cons x xs =>
      rw [sampleAux_cons_eq]
      have hi : (randBelow g (x :: xs).length).1 < (x :: xs).length :=
        randBelow_fst_lt _ _ (by simp)
      have hlen := List.length_eraseIdx_add_one hi
      have hrec : List.Perm
          (sampleAux k ((x :: xs).eraseIdx (randBelow g (x :: xs).length).1)
            (randBelow g (x :: xs).length).2).1
          ((x :: xs).eraseIdx (randBelow g (x :: xs).length).1) := by
        refine ih _ _ ?_
        omega
      rw [List.getD_eq_getElem _ _ hi]
      exact (hrec.cons _).trans (getElem_cons_eraseIdx_perm (x :: xs) _ hi)

theorem pyShuffle_perm {α : Type} (l : List α) (g : Nat) :
    List.Perm (pyShuffle l g).1 l :=
  sampleAux_perm l.length l g (Nat.le_refl _)

/-! ### Lemmas about the association-list dictionary model -/

theorem lookupA_updateA_self {α : Type} (k : String) (v : α) :
    ∀ (l : List (String × α)) (w : α), lookupA k l = some w →
      lookupA k (updateA k v l) = some v := by
  intro l
  induction l with
  | nil => intro w h; simp [lookupA] at h
  | cons p rest ih =>
    intro w h
    by_cases hk : k = p.1
    · simp [lookupA, updateA, hk]
    · simp only [lookupA, updateA, if_neg hk] at h ⊢
      exact ih w h

theorem updateA_lookup_self {α : Type} (k : String) :
    ∀ (l : List (String × α)) (w : α), lookupA k l = some w → updateA k w l = l := by
  intro l
  induction l with
  | nil => intro w h; simp [lookupA] at h
  | cons p rest ih =>
    intro w h
    by_cases hk : k = p.1
    · simp only [lookupA, if_pos hk] at h
      obtain ⟨rfl⟩ := h
      simp [updateA, hk]
    · simp only [lookupA, if_neg hk] at h
      simp only [updateA, if_neg hk, ih w h]

/-! ### Lemmas about outcome recording -/

theorem recordInList_not_found (now : Nat) (nm : String) (c : Bool) (a : Option Int)
    (t : Option Rat) :
    ∀ (l : List Candidate), (∀ p ∈ l, p.name ≠ nm) →
      recordInList now nm c a t l = (l, none) := by
  intro l
  induction l with
  | nil => intro _; rfl
  | cons p rest ih =>
    intro h
    have hp : p.name ≠ nm := h p (List.mem_cons_self p rest)
    simp only [recordInList, if_neg hp]
    rw [ih (fun q hq => h q (List.mem_cons_of_mem p hq))]

/-- The record produced by a consenting `record_contact_attempt` on candidate
`c` at time `now` with the call's `age` and `tug_time` arguments. -/
def recordedCand (c : Candidate) (now : Nat) (a : Option Int) (t : Option Rat) : Candidate :=
  { c with contacted := true, consented := some true, timestamp := some now,
           age := a, tug_time := t }

theorem recordInList_found_true (now : Nat) (nm : String) (a : Option Int) (t : Option Rat) :
    ∀ (pre : List Candidate) (c : Candidate) (post : List Candidate),
      (∀ p ∈ pre, p.name ≠ nm) → c.name = nm →
      recordInList now nm true a t (pre ++ c :: post) =
        (pre ++ recordedCand c now a t :: post, some (recordedCand c now a t)) := by
  intro pre
  induction pre with
  | nil =>
    intro c post _ hc
    simp only [List.nil_append, recordInList, if_pos hc, if_pos rfl]
    rfl
  | cons p rest ih =>
    intro c post h hc
    have hp : p.name ≠ nm := h p (List.mem_cons_self p rest)
    simp only [List.cons_append, recordInList, if_neg hp, List.append_eq]
    rw [ih c post (fun q hq => h q (List.mem_cons_of_mem p hq)) hc]

/-! ### Lemmas about the Stage-2 grouping and shuffling pipeline -/

/-- Concatenation of the per-house candidate blocks of a grouping. -/
def joinGroups : List (String × List Candidate) → List Candidate
  | [] => []
  | (_, ps) :: rest => ps ++ joinGroups rest

theorem insertByHouse_join (c : Candidate) :
    ∀ (gs : List (String × List Candidate)),
      List.Perm (joinGroups (insertByHouse gs c)) (joinGroups gs ++ [c]) := by
  intro gs
  induction gs with
  | nil => simp [insertByHouse, joinGroups]
  | cons p rest ih =>
    obtain ⟨h, ps⟩ := p
    by_cases hh : h = c.house_number
    · simp only [insertByHouse, if_pos hh, joinGroups]
      rw [List.append_assoc, List.append_assoc]
      exact List.Perm.append_left ps List.perm_append_comm
    · simp only [insertByHouse, if_neg hh, joinGroups]
      rw [List.append_assoc]
      exact List.Perm.append_left ps ih

theorem groupByHouse_foldl :
    ∀ (l : List Candidate) (acc : List (String × List Candidate)),
      List.Perm (joinGroups (l.foldl insertByHouse acc)) (joinGroups acc ++ l) := by
  intro l
  induction l with
  | nil => intro acc; simp
  | cons c rest ih =>
    intro acc
    simp only [List.foldl_cons]
    refine (ih (insertByHouse acc c)).trans ?_
    refine (List.Perm.append_right rest (insertByHouse_join c acc)).trans ?_
    rw [List.append_assoc, List.singleton_append]

theorem groupByHouse_join (l : List Candidate) :
    List.Perm (joinGroups (groupByHouse l)) l := by
  have h := groupByHouse_foldl l []
  simpa [joinGroups, groupByHouse] using h

theorem stageTwoLoop_perm :
    ∀ (gs : List (String × List Candidate)) (g : Nat),
      List.Perm (stageTwoLoop gs g).1 (joinGroups gs) := by
  intro gs
  induction gs with
  | nil => intro g; simp [stageTwoLoop, joinGroups]
  | cons p rest ih =>
    intro g
    obtain ⟨h, people⟩ := p
    by_cases h1 : people.length = 1
    · simp only [stageTwoLoop, if_pos h1, joinGroups]
      exact List.Perm.append_left people (ih g)
    · simp only [stageTwoLoop, if_neg h1, joinGroups]
      exact List.Perm.append (pyShuffle_perm people g) (ih _)

theorem stageTwoCore_perm (s1 : SamplerState) (village : String) (lst : List Candidate)
    (sel : List String) :
    List.Perm (stageTwoCore s1 village lst sel).1
      ((lst.map (markFlags sel)).filter (fun c => decide (c.house_number ∈ sel))) :=
  (pyShuffle_perm _ _).trans ((stageTwoLoop_perm _ _).trans (groupByHouse_join _))

theorem stageTwoFinish (s1 : SamplerState) (village : String) (lst : List Candidate)
    (sel : List String) (res : List Candidate) (s' : SamplerState) (g' : Nat)
    (hp1 : lookupA village s1.potential_participants = some lst)
    (hsel1 : lookupA village s1.selected_houses = some sel)
    (heq : stageTwoCore s1 village lst sel = (res, s', g'))
    (lst' : List Candidate) (sel' : List String)
    (hp' : lookupA village s'.potential_participants = some lst')
    (hsel' : lookupA village s'.selected_houses = some sel') :
    List.Perm res (lst'.filter (fun c => decide (c.house_number ∈ sel'))) := by
  have e1 : (stageTwoCore s1 village lst sel).1 = res := by rw [heq]
  have e2 : (stageTwoCore s1 village lst sel).2.1 = s' := by rw [heq]
  have hpot : s'.potential_participants =
      updateA village (lst.map (markFlags sel)) s1.potential_participants := by
    rw [← e2]; rfl
  have hselh : s'.selected_houses = s1.selected_houses := by
    rw [← e2]; rfl
  rw [hpot, lookupA_updateA_self village (lst.map (markFlags sel))
    s1.potential_participants lst hp1] at hp'
  have hlst' : lst' = lst.map (markFlags sel) := by
    injection hp' with hx; exact hx.symm
  rw [hselh, hsel1] at hsel'
  have hsel2 : sel' = sel := by
    injection hsel' with hx; exact hx.symm
  simp only [hlst', hsel2, ← e1]
  exact stageTwoCore_perm s1 village lst sel

/-! ### Shared concrete scenarios for the witnesses -/

/-- Registration calls of the three-candidate Vardo roster: two candidates in
house H1, one in house H2. -/
def vardoCalls : List RegCall :=
  [⟨"Vardo", "Ana", "H1", some 30⟩, ⟨"Vardo", "Ben", "H1", none⟩,
   ⟨"Vardo", "Cal", "H2", some 41⟩]

/-- State of a successful run, defaulting to the given state on error. -/
def okState (d : SamplerState) : Except PyError SamplerState → SamplerState
  | .ok s => s
  | .error _ => d

/-- The roster after replaying `vardoCalls` on a fresh sampler with seed 42
and 2 houses per village. -/
def vardoState : SamplerState :=
  okState (initState 42 2) (runRegisters 42 2 vardoCalls)

/-- Result triple of Stage-1 selection, defaulting on error. -/
def selAt (s : SamplerState) (v : String) (g : Nat) : List String × SamplerState × Nat :=
  match select_houses_for_sampling s v g with
  | .ok x => x
  | .error _ => ([], s, g)

/-- Result triple of contact-order generation, defaulting on error. -/
def genAt (s : SamplerState) (v : String) (g : Nat) : List Candidate × SamplerState × Nat :=
  match generate_two_stage_sampling_order s v g with
  | .ok x => x
  | .error _ => ([], s, g)

/-! ### C1 -/

/-- C1: for every group whose house registry is non-empty (with a selection
slot present for the group, as every constructed roster has), Stage-1
selection stores and returns a selection that is a subset of the registry,
consists of distinct houses, and has size exactly
`min(houses_per_village, |registry|)`. -/
theorem select_houses_subset_card (s : SamplerState) (village : String) (hs : List String)
    (g : Nat) (sel : List String) (s' : SamplerState) (g' : Nat)
    (hreg : lookupA village s.house_registry = some hs)
    (hne : hs ≠ []) (hnd : hs.Nodup)
    (sel0 : List String) (hsel0 : lookupA village s.selected_houses = some sel0)
    (hrun : select_houses_for_sampling s village g = Except.ok (sel, s', g')) :
    sel ⊆ hs ∧ sel.Nodup ∧ sel.length = min s.houses_per_village hs.length ∧
      lookupA village s'.selected_houses = some sel := by
  set q := sampleAux (min s.houses_per_village hs.length) hs
    (mkRng (s.random_seed + pyHash village)) with hqdef
  have hq : select_houses_for_sampling s village g =
      Except.ok (q.1, { s with selected_houses := updateA village q.1 s.selected_houses }, q.2) := by
    simp only [select_houses_for_sampling, hreg, if_neg hne]
  rw [hq] at hrun
  simp only [Except.ok.injEq, Prod.mk.injEq] at hrun
  obtain ⟨h1, h2, h3⟩ := hrun
  subst h1
  refine ⟨?_, ?_, ?_, ?_⟩
  · rw [hqdef]; exact sampleAux_subset _ _ _
  · rw [hqdef]; exact sampleAux_nodup _ _ _ hnd
  · rw [hqdef, sampleAux_length]; omega
  · rw [← h2]
    exact lookupA_updateA_self village _ s.selected_houses sel0 hsel0

/-- Decidable equality of operation results, used to evaluate concrete runs
in the witnesses. -/
instance {ε α : Type} [DecidableEq ε] [DecidableEq α] : DecidableEq (Except ε α) := fun a b =>
  match a, b with
  | .error e, .error f =>
    if h : e = f then .isTrue (congrArg Except.error h)
    else .isFalse (fun hh => h (Except.error.inj hh))
  | .ok x, .ok y =>
    if h : x = y then .isTrue (congrArg Except.ok h)
    else .isFalse (fun hh => h (Except.ok.inj hh))
  | .error _, .ok _ => .isFalse (fun hh => Except.noConfusion hh)
  | .ok _, .error _ => .isFalse (fun hh => Except.noConfusion hh)

set_option maxRecDepth 8000 in
/-- Witness for C1 at the three-candidate Vardo roster: houses H1 and H2 are
registered, two houses per village are requested, and the stored selection
satisfies all three properties. -/
theorem select_houses_subset_card_witness :
    lookupA "Vardo" vardoState.house_registry = some ["H1", "H2"] ∧
    (["H1", "H2"] : List String) ≠ [] ∧ (["H1", "H2"] : List String).Nodup ∧
    lookupA "Vardo" vardoState.selected_houses = some [] ∧
    select_houses_for_sampling vardoState "Vardo" (initRng 42) =
      Except.ok ((selAt vardoState "Vardo" (initRng 42)).1,
        (selAt vardoState "Vardo" (initRng 42)).2.1,
        (selAt vardoState "Vardo" (initRng 42)).2.2) ∧
    ((selAt vardoState "Vardo" (initRng 42)).1 ⊆ ["H1", "H2"] ∧
      (selAt vardoState "Vardo" (initRng 42)).1.Nodup ∧
      (selAt vardoState "Vardo" (initRng 42)).1.length =
        min vardoState.houses_per_village (["H1", "H2"] : List String).length ∧
      lookupA "Vardo" (selAt vardoState "Vardo" (initRng 42)).2.1.selected_houses =
        some (selAt vardoState "Vardo" (initRng 42)).1) :=
  ⟨by decide, by decide, by decide, by decide, by decide,
   select_houses_subset_card vardoState "Vardo" ["H1", "H2"] (initRng 42)
     (selAt vardoState "Vardo" (initRng 42)).1 (selAt vardoState "Vardo" (initRng 42)).2.1
     (selAt vardoState "Vardo" (initRng 42)).2.2 (by decide)
     (by decide) (by decide) [] (by decide) (by decide)⟩

/-! ### C2 -/

theorem select_rng_independent (s : SamplerState) (v : String) (g1 g2 : Nat) :
    (select_houses_for_sampling s v g1).map dropRng
      = (select_houses_for_sampling s v g2).map dropRng := by
  unfold select_houses_for_sampling
  cases h : lookupA v s.house_registry with
  | none => rfl
  | some hs =>
    by_cases he : hs = []
    · simp [he, Except.map, dropRng]
    · simp [he]

theorem gen_rng_independent (s : SamplerState) (v : String) (g1 g2 : Nat) :
    (generate_two_stage_sampling_order s v g1).map dropRng
      = (generate_two_stage_sampling_order s v g2).map dropRng := by
  unfold generate_two_stage_sampling_order
  cases hp : lookupA v s.potential_participants with
  | none => simp [Except.map, dropRng]
  | some lst =>
    cases hsel : lookupA v s.selected_houses with
    | none => rfl
    | some sel0 =>
      by_cases hz : sel0 = []
      · simp only [if_pos hz]
        unfold select_houses_for_sampling
        cases hreg : lookupA v s.house_registry with
        | none => rfl
        | some hs =>
          by_cases he : hs = []
          · simp [he, Except.map, dropRng]
          · simp [he]
      · simp only [if_neg hz]

/-- C2: two fresh rosters built with the same seed and houses-per-village
and fed the same registration sequence are the same state (`runRegisters` is
a pure function of those inputs), and because every stochastic operation
re-seeds the generator from `(random_seed, hash(village), stage constant)`
before drawing, `select_houses_for_sampling` and
`generate_two_stage_sampling_order` return the same selection, contact order
and roster state regardless of the ambient generator states `g1`, `g2` the
two runs start from. -/
theorem two_run_determinism (seed : Int) (hpv : Nat) (calls : List RegCall)
    (s : SamplerState) (h : runRegisters seed hpv calls = Except.ok s)
    (village : String) (g1 g2 : Nat) :
    (select_houses_for_sampling s village g1).map dropRng
      = (select_houses_for_sampling s village g2).map dropRng ∧
    (generate_two_stage_sampling_order s village g1).map dropRng
      = (generate_two_stage_sampling_order s village g2).map dropRng :=
  ⟨select_rng_independent s village g1 g2, gen_rng_independent s village g1 g2⟩

set_option maxRecDepth 8000 in
/-- Witness for C2 at the three-candidate Vardo roster, with two different
ambient generator states 5 and 99. -/
theorem two_run_determinism_witness :
    runRegisters 42 2 vardoCalls = Except.ok vardoState ∧
    ((select_houses_for_sampling vardoState "Vardo" 5).map dropRng
       = (select_houses_for_sampling vardoState "Vardo" 99).map dropRng ∧
     (generate_two_stage_sampling_order vardoState "Vardo" 5).map dropRng
       = (generate_two_stage_sampling_order vardoState "Vardo" 99).map dropRng) :=
  ⟨by decide, two_run_determinism 42 2 vardoCalls vardoState (by decide) "Vardo" 5 99⟩

/-! ### C5 -/

/-- C5 counterexample: recording an outcome for a name with no matching
candidate does not fail at all: the code's search loop simply finds nothing
and the call returns normally with the roster unchanged, while the spec's
described behaviour (`record_outcome_specModel`) fails with
`CandidateNotFoundError` on the same input. -/
theorem record_no_match_no_error_cex :
    record_contact_attempt (initState 42 15) 0 "Vardo" "Nobody" true none none =
      Except.ok (initState 42 15) ∧
    record_outcome_specModel (initState 42 15) 0 "Vardo" "Nobody" true none none =
      Except.error SpecError.candidateNotFound := by
  constructor
  · decide
  · decide

/-- C5 amended: for a known group and a name matching no candidate of that
group, `record_contact_attempt` is a silent no-op: it raises nothing and
returns the roster completely unchanged (candidates, participants, house
registry and selections all untouched). -/
theorem record_no_match_noop (s : SamplerState) (now : Nat) (village nm : String)
    (consented : Bool) (a : Option Int) (t : Option Rat) (lst : List Candidate)
    (hp : lookupA village s.potential_participants = some lst)
    (hno : ∀ p ∈ lst, p.name ≠ nm) :
    record_contact_attempt s now village nm consented a t = Except.ok s := by
  have hfind := recordInList_not_found now nm consented a t lst hno
  simp only [record_contact_attempt, hp, hfind, Option.toList_none, List.append_nil,
    updateA_lookup_self village s.potential_participants lst hp]

/-- Witness for C5 (amended): recording "Nobody" on the fresh roster. -/
theorem record_no_match_noop_witness :
    lookupA "Vardo" (initState 42 15).potential_participants = some [] ∧
    record_contact_attempt (initState 42 15) 0 "Vardo" "Nobody" true none none =
      Except.ok (initState 42 15) :=
  ⟨by decide, record_no_match_noop (initState 42 15) 0 "Vardo" "Nobody" true none none []
    (by decide) (by intro p hp; cases hp)⟩

/-! ### C6 -/

/-- C6: registering a candidate under a group name outside the roster's
dicts fails with the interpreter's `KeyError` (the failure the spec names
`UnknownGroupError`); for a known group the call succeeds, adds the house to
the group's registry when it is new, and appends a fresh candidate record
with `contacted = false` and all outcome fields unset. -/
theorem register_unknown_fails_known_appends :
    (∀ (s : SamplerState) (village nm house : String) (a : Option Int),
        lookupA village s.house_registry = none →
        lookupA village s.potential_participants = none →
        add_potential_participant s village nm house a = Except.error PyError.keyError) ∧
    (∀ (s : SamplerState) (village nm house : String) (a : Option Int)
        (hr : List String) (ps : List Candidate),
        lookupA village s.house_registry = some hr →
        lookupA village s.potential_participants = some ps →
        ∃ s', add_potential_participant s village nm house a = Except.ok s' ∧
          lookupA village s'.house_registry =
            some (if house ∈ hr then hr else hr ++ [house]) ∧
          lookupA village s'.potential_participants =
            some (ps ++ [⟨village, nm, house, a, false, none, none, none, false, false⟩])) := by
  constructor
  · intro s village nm house a h1 h2
    have hs1 : add_house_to_registry s village house = s := by
      simp only [add_house_to_registry, h1]
    simp only [add_potential_participant, hs1, h2]
  · intro s village nm house a hr ps h1 h2
    have hs1 : add_house_to_registry s village house =
        { s with house_registry :=
            updateA village (if house ∈ hr then hr else hr ++ [house]) s.house_registry } := by
      simp only [add_house_to_registry, h1]
    have hadd : add_potential_participant s village nm house a =
        Except.ok { s with
          house_registry := updateA village (if house ∈ hr then hr else hr ++ [house]) s.house_registry,
          potential_participants := updateA village (ps ++ [⟨village, nm, house, a, false, none, none, none, false, false⟩]) s.potential_participants } := by
      simp only [add_potential_participant, hs1, h2]
    exact ⟨_, hadd, lookupA_updateA_self village _ s.house_registry hr h1,
      lookupA_updateA_self village _ s.potential_participants ps h2⟩

/-- Witness for C6: registering in the unknown group "Atlantis" fails with
`KeyError`; registering Ana in Vardo on the fresh roster appends her record
and registers house H1. -/
theorem register_unknown_fails_known_appends_witness :
    (lookupA "Atlantis" (initState 42 15).house_registry = none ∧
     lookupA "Atlantis" (initState 42 15).potential_participants = none ∧
     add_potential_participant (initState 42 15) "Atlantis" "Zed" "H9" none =
       Except.error PyError.keyError) ∧
    (lookupA "Vardo" (initState 42 15).house_registry = some [] ∧
     lookupA "Vardo" (initState 42 15).potential_participants = some [] ∧
     ∃ s', add_potential_participant (initState 42 15) "Vardo" "Ana" "H1" (some 30) =
         Except.ok s' ∧
       lookupA "Vardo" s'.house_registry =
         some (if "H1" ∈ ([] : List String) then [] else ([] : List String) ++ ["H1"]) ∧
       lookupA "Vardo" s'.potential_participants =
         some (([] : List Candidate) ++
           [⟨"Vardo", "Ana", "H1", some 30, false, none, none, none, false, false⟩])) :=
  ⟨⟨by decide, by decide,
    register_unknown_fails_known_appends.1 (initState 42 15) "Atlantis" "Zed" "H9" none
      (by decide) (by decide)⟩,
   ⟨by decide, by decide,
    register_unknown_fails_known_appends.2 (initState 42 15) "Vardo" "Ana" "H1" (some 30) [] []
      (by decide) (by decide)⟩⟩

/-! ### C10 -/

/-- C10: a consenting `record_contact_attempt` always overwrites the matched
candidate's `age` and `tug_time` with the call's arguments: in particular a
candidate registered with a non-null age, recorded with the age argument
left at its `None` default, ends with `age = none` (and likewise
`tug_time = none`); the registration-time age is not preserved. -/
theorem consent_overwrites_age (s : SamplerState) (now : Nat) (village nm : String)
    (pre post : List Candidate) (c : Candidate) (a0 : Int)
    (hp : lookupA village s.potential_participants = some (pre ++ c :: post))
    (hpre : ∀ p ∈ pre, p.name ≠ nm) (hc : c.name = nm) (hage : c.age = some a0) :
    ∃ s', record_contact_attempt s now village nm true none none = Except.ok s' ∧
      lookupA village s'.potential_participants =
        some (pre ++ recordedCand c now none none :: post) ∧
      (recordedCand c now none none).age = none ∧
      (recordedCand c now none none).tug_time = none := by
  have hrec := recordInList_found_true now nm none none pre c post hpre hc
  have heq : record_contact_attempt s now village nm true none none =
      Except.ok { s with
        potential_participants := updateA village (pre ++ recordedCand c now none none :: post) s.potential_participants,
        participants := s.participants ++ [recordedCand c now none none] } := by
    simp only [record_contact_attempt, hp, hrec, Option.toList_some]
  exact ⟨_, heq, lookupA_updateA_self village _ s.potential_participants _ hp, rfl, rfl⟩

set_option maxRecDepth 8000 in
/-- Witness for C10: Ana is registered with age 30; a consenting record with
the age and tug-time arguments omitted leaves her stored age unset. -/
theorem consent_overwrites_age_witness :
    lookupA "Vardo" vardoState.potential_participants =
      some ([] ++ ⟨"Vardo", "Ana", "H1", some 30, false, none, none, none, false, false⟩ ::
        [⟨"Vardo", "Ben", "H1", none, false, none, none, none, false, false⟩,
         ⟨"Vardo", "Cal", "H2", some 41, false, none, none, none, false, false⟩]) ∧
    (∃ s', record_contact_attempt vardoState 7 "Vardo" "Ana" true none none = Except.ok s' ∧
      lookupA "Vardo" s'.potential_participants =
        some ([] ++ recordedCand
            ⟨"Vardo", "Ana", "H1", some 30, false, none, none, none, false, false⟩ 7 none none ::
          [⟨"Vardo", "Ben", "H1", none, false, none, none, none, false, false⟩,
           ⟨"Vardo", "Cal", "H2", some 41, false, none, none, none, false, false⟩]) ∧
      (recordedCand ⟨"Vardo", "Ana", "H1", some 30, false, none, none, none, false, false⟩
          7 none none).age = none ∧
      (recordedCand ⟨"Vardo", "Ana", "H1", some 30, false, none, none, none, false, false⟩
          7 none none).tug_time = none) :=
  ⟨by decide,
   consent_overwrites_age vardoState 7 "Vardo" "Ana" []
     [⟨"Vardo", "Ben", "H1", none, false, none, none, none, false, false⟩,
      ⟨"Vardo", "Cal", "H2", some 41, false, none, none, none, false, false⟩]
     ⟨"Vardo", "Ana", "H1", some 30, false, none, none, none, false, false⟩ 30
     (by decide) (by intro p hp; cases hp) rfl rfl⟩

/-! ### C4 -/

/-- Roster with Alice registered in Vardo and one consenting contact already
recorded for her at time 0. -/
def aliceOnceState : SamplerState :=
  okState (initState 42 15)
    ((add_potential_participant (initState 42 15) "Vardo" "Alice" "H1" (some 30)).bind
      (fun s1 => record_contact_attempt s1 0 "Vardo" "Alice" true (some 30) none))

/-- C4 counterexample: registering Alice once and recording a consenting
outcome for her twice leaves TWO entries in the finalized participant list —
`record_contact_attempt` appends a fresh snapshot on every consenting call,
so a candidate is not limited to at most one Participant entry. -/
theorem repeated_consent_duplicates_cex :
    ((add_potential_participant (initState 42 15) "Vardo" "Alice" "H1" (some 30)).bind
      (fun s1 => (record_contact_attempt s1 0 "Vardo" "Alice" true (some 30) none).bind
        (fun s2 => record_contact_attempt s2 1 "Vardo" "Alice" true (some 30) none))).map
      (fun s => s.participants.length) = Except.ok 2 ∧ ¬ (2 ≤ (1 : Nat)) := by
  constructor
  · decide
  · decide

/-- C4 amended: re-invoking `record_contact_attempt` on an already-contacted
candidate raises no error and overwrites the candidate's recorded outcome
with the call's arguments (last write wins), but each consenting invocation
also appends a fresh Participant snapshot, growing the finalized list by one
every time — so repeated consenting calls for one candidate do accumulate
multiple Participant entries. -/
theorem record_overwrite_appends (s : SamplerState) (now : Nat) (village nm : String)
    (pre post : List Candidate) (c : Candidate) (a : Option Int) (t : Option Rat)
    (hp : lookupA village s.potential_participants = some (pre ++ c :: post))
    (hpre : ∀ p ∈ pre, p.name ≠ nm) (hc : c.name = nm) (hcontacted : c.contacted = true) :
    ∃ s', record_contact_attempt s now village nm true a t = Except.ok s' ∧
      lookupA village s'.potential_participants = some (pre ++ recordedCand c now a t :: post) ∧
      (recordedCand c now a t).contacted = true ∧
      (recordedCand c now a t).consented = some true ∧
      (recordedCand c now a t).age = a ∧ (recordedCand c now a t).tug_time = t ∧
      s'.participants = s.participants ++ [recordedCand c now a t] ∧
      s'.participants.length = s.participants.length + 1 := by
  have hrec := recordInList_found_true now nm a t pre c post hpre hc
  have heq : record_contact_attempt s now village nm true a t =
      Except.ok { s with
        potential_participants := updateA village (pre ++ recordedCand c now a t :: post) s.potential_participants,
        participants := s.participants ++ [recordedCand c now a t] } := by
    simp only [record_contact_attempt, hp, hrec, Option.toList_some]
  refine ⟨_, heq, lookupA_updateA_self village _ s.potential_participants _ hp,
    rfl, rfl, rfl, rfl, rfl, ?_⟩
  simp

set_option maxRecDepth 8000 in
/-- Witness for C4 (amended): a second consenting record for the
already-contacted Alice succeeds, overwrites her record, and appends a
second snapshot. -/
theorem record_overwrite_appends_witness :
    lookupA "Vardo" aliceOnceState.potential_participants =
      some ([] ++ recordedCand
          ⟨"Vardo", "Alice", "H1", some 30, false, none, none, none, false, false⟩ 0
          (some 30) none :: []) ∧
    (recordedCand ⟨"Vardo", "Alice", "H1", some 30, false, none, none, none, false, false⟩ 0
        (some 30) none).contacted = true ∧
    (∃ s', record_contact_attempt aliceOnceState 1 "Vardo" "Alice" true (some 31) none =
        Except.ok s' ∧
      lookupA "Vardo" s'.potential_participants =
        some ([] ++ recordedCand (recordedCand
            ⟨"Vardo", "Alice", "H1", some 30, false, none, none, none, false, false⟩ 0
            (some 30) none) 1 (some 31) none :: []) ∧
      (recordedCand (recordedCand
          ⟨"Vardo", "Alice", "H1", some 30, false, none, none, none, false, false⟩ 0
          (some 30) none) 1 (some 31) none).contacted = true ∧
      (recordedCand (recordedCand
          ⟨"Vardo", "Alice", "H1", some 30, false, none, none, none, false, false⟩ 0
          (some 30) none) 1 (some 31) none).consented = some true ∧
      (recordedCand (recordedCand
          ⟨"Vardo", "Alice", "H1", some 30, false, none, none, none, false, false⟩ 0
          (some 30) none) 1 (some 31) none).age = some 31 ∧
      (recordedCand (recordedCand
          ⟨"Vardo", "Alice", "H1", some 30, false, none, none, none, false, false⟩ 0
          (some 30) none) 1 (some 31) none).tug_time = none ∧
      s'.participants = aliceOnceState.participants ++ [recordedCand (recordedCand
          ⟨"Vardo", "Alice", "H1", some 30, false, none, none, none, false, false⟩ 0
          (some 30) none) 1 (some 31) none] ∧
      s'.participants.length = aliceOnceState.participants.length + 1) :=
  ⟨by decide, by decide,
   record_overwrite_appends aliceOnceState 1 "Vardo" "Alice" [] []
     (recordedCand ⟨"Vardo", "Alice", "H1", some 30, false, none, none, none, false, false⟩ 0
       (some 30) none) (some 31) none (by decide) (by intro p hp; cases hp) rfl rfl⟩

/-! ### C8 -/

/-- C8 counterexample: export on a roster with zero participants raises no
error: the code prints a message and returns early, writing nothing
(modelled as `none`), while the spec's described behaviour
(`export_specModel`) fails with `NothingToExportError` on the same input. -/
theorem export_empty_no_error_cex :
    export_data (initState 42 15) = none ∧
    export_specModel (initState 42 15) = Except.error SpecError.nothingToExport := by
  constructor
  · decide
  · decide

/-- C8 amended: with zero finalized participants `export_data` writes no
file and returns early without raising (and, being a read-only function of
the state, leaves the roster unchanged); with a non-empty finalized list it
writes exactly one row per participant. The per-group counts are printed,
not returned — the source method returns `None`. -/
theorem export_rows (s : SamplerState) :
    (export_data s = none ↔ s.participants = []) ∧
    ∀ rows, export_data s = some rows → rows = s.participants ∧
      rows.length = s.participants.length := by
  unfold export_data
  by_cases h : s.participants = [] <;> simp [h]

set_option maxRecDepth 8000 in
/-- Witness for C8 (amended) at the empty fresh roster and at the roster
holding Alice's consenting record. -/
theorem export_rows_witness :
    (export_data (initState 42 15) = none ↔ (initState 42 15).participants = []) ∧
    (aliceOnceState.participants = aliceOnceState.participants ∧
      aliceOnceState.participants.length = aliceOnceState.participants.length) ∧
    export_data aliceOnceState = some aliceOnceState.participants ∧
    aliceOnceState.participants.length = 1 :=
  ⟨(export_rows (initState 42 15)).1,
   (export_rows aliceOnceState).2 aliceOnceState.participants (by decide),
   by decide, by decide⟩

/-! ### C9 -/

/-- C9: the contact order returned by
`generate_two_stage_sampling_order` is a permutation of exactly the
candidates of the group whose house belongs to the stored Stage-1 selection
(as recorded in the returned roster state): the per-house shuffles and the
final full-list shuffle preserve the multiset of eligible candidates, so
each eligible candidate appears exactly once. -/
theorem contact_order_perm (s : SamplerState) (village : String) (g : Nat)
    (lst0 : List Candidate) (hp : lookupA village s.potential_participants = some lst0)
    (res : List Candidate) (s' : SamplerState) (g' : Nat)
    (hrun : generate_two_stage_sampling_order s village g = Except.ok (res, s', g'))
    (lst' : List Candidate) (sel' : List String)
    (hp' : lookupA village s'.potential_participants = some lst')
    (hsel' : lookupA village s'.selected_houses = some sel') :
    List.Perm res (lst'.filter (fun c => decide (c.house_number ∈ sel'))) := by
  cases hsel : lookupA village s.selected_houses with
  | none =>
    have hbad : generate_two_stage_sampling_order s village g =
        Except.error PyError.keyError := by
      simp only [generate_two_stage_sampling_order, hp, hsel]
    rw [hbad] at hrun
    exact Except.noConfusion hrun
  | some sel0 =>
    by_cases hz : sel0 = []
    · cases hreg : lookupA village s.house_registry with
      | none =>
        have hbad : generate_two_stage_sampling_order s village g =
            Except.error PyError.keyError := by
          simp only [generate_two_stage_sampling_order, hp, hsel, if_pos hz,
            select_houses_for_sampling, hreg, Except.map]
        rw [hbad] at hrun
        exact Except.noConfusion hrun
      | some hsl =>
        by_cases he : hsl = []
        · have hgen : generate_two_stage_sampling_order s village g =
              Except.ok (stageTwoCore s village lst0 sel0) := by
            simp only [generate_two_stage_sampling_order, hp, hsel, if_pos hz,
              select_houses_for_sampling, hreg, if_pos he, Except.map]
          have hcore : stageTwoCore s village lst0 sel0 = (res, s', g') :=
            Except.ok.inj (hgen.symm.trans hrun)
          exact stageTwoFinish s village lst0 sel0 res s' g' hp hsel hcore lst' sel' hp' hsel'
        · set q := sampleAux (min s.houses_per_village hsl.length) hsl
            (mkRng (s.random_seed + pyHash village)) with hqdef
          have hlk : lookupA village (updateA village q.1 s.selected_houses) = some q.1 :=
            lookupA_updateA_self village q.1 s.selected_houses sel0 hsel
          have hgen : generate_two_stage_sampling_order s village g =
              Except.ok (stageTwoCore
                { s with selected_houses := updateA village q.1 s.selected_houses }
                village lst0 q.1) := by
            simp only [generate_two_stage_sampling_order, hp, hsel, if_pos hz,
              select_houses_for_sampling, hreg, if_neg he, Except.map, ← hqdef, hlk]
          have hcore : stageTwoCore
              { s with selected_houses := updateA village q.1 s.selected_houses }
              village lst0 q.1 = (res, s', g') :=
            Except.ok.inj (hgen.symm.trans hrun)
          exact stageTwoFinish
            { s with selected_houses := updateA village q.1 s.selected_houses }
            village lst0 q.1 res s' g' hp hlk hcore lst' sel' hp' hsel'
    · have hgen : generate_two_stage_sampling_order s village g =
          Except.ok (stageTwoCore s village lst0 sel0) := by
        simp only [generate_two_stage_sampling_order, hp, hsel, if_neg hz]
      have hcore : stageTwoCore s village lst0 sel0 = (res, s', g') :=
        Except.ok.inj (hgen.symm.trans hrun)
      exact stageTwoFinish s village lst0 sel0 res s' g' hp hsel hcore lst' sel' hp' hsel'

/-- Roster of the Vardo scenario after Stage-1 selection of 2 houses. -/
def vardoSelState : SamplerState :=
  (selAt vardoState "Vardo" (initRng 42)).2.1

/-- Generator state left behind by the Stage-1 selection of the scenario. -/
def vardoGenRng : Nat :=
  (selAt vardoState "Vardo" (initRng 42)).2.2

/-- Candidate list of Vardo before the Stage-2 run. -/
def vardoLst0 : List Candidate :=
  (lookupA "Vardo" vardoSelState.potential_participants).getD []

/-- Result triple of the Stage-2 contact-order run of the scenario. -/
def vardoGen : List Candidate × SamplerState × Nat :=
  genAt vardoSelState "Vardo" vardoGenRng

/-- Candidate list of Vardo after the Stage-2 run (flags set). -/
def vardoLstAfter : List Candidate :=
  (lookupA "Vardo" vardoGen.2.1.potential_participants).getD []

/-- Stored Stage-1 selection after the Stage-2 run. -/
def vardoSelAfter : List String :=
  (lookupA "Vardo" vardoGen.2.1.selected_houses).getD []

set_option maxRecDepth 20000 in
/-- Witness for C9: the spec's Vardo scenario — three candidates in houses
H1, H1, H2, Stage-1 selection of 2 houses (both get selected), and the
returned contact order is a permutation of the eligible candidates
containing each of the three names exactly once. -/
theorem contact_order_perm_witness :
    lookupA "Vardo" vardoSelState.potential_participants = some vardoLst0 ∧
    generate_two_stage_sampling_order vardoSelState "Vardo" vardoGenRng =
      Except.ok (vardoGen.1, vardoGen.2.1, vardoGen.2.2) ∧
    lookupA "Vardo" vardoGen.2.1.potential_participants = some vardoLstAfter ∧
    lookupA "Vardo" vardoGen.2.1.selected_houses = some vardoSelAfter ∧
    List.Perm vardoGen.1
      (vardoLstAfter.filter (fun c => decide (c.house_number ∈ vardoSelAfter))) ∧
    List.Perm (vardoGen.1.map Candidate.name) ["Ana", "Ben", "Cal"] :=
  ⟨by decide, by decide, by decide, by decide,
   contact_order_perm vardoSelState "Vardo" vardoGenRng vardoLst0 (by decide)
     vardoGen.1 vardoGen.2.1 vardoGen.2.2 (by decide) vardoLstAfter vardoSelAfter
     (by decide) (by decide),
   by decide⟩

/-! ### C3 -/

/-- C3 counterexample: at the published Vardo figures (762 houses,
population 1790) with target 20 and response rate 0.65 the code returns 15
houses — Python `int()` truncates the quotient 13.09... to 13 before the +2
buffer — while the claimed ceiling formula gives 16. -/
theorem sampling_strategy_ceil_cex :
    calculate_sampling_strategy "Vardo" 20 (13 / 20) = Except.ok (15, 895 / 381) ∧
    (⌈(20 : Rat) / ((13 / 20) * ((1790 : Rat) / 762))⌉ + 2 : Int) = 16 ∧
    (15 : Int) ≠ 16 := by
  refine ⟨?_, ?_, by decide⟩
  · norm_num [calculate_sampling_strategy, VILLAGE_DATA, calc_strategy_core, truncQ,
      Int.floor_eq_iff]
  · rw [show ((20 : Rat) / ((13 / 20) * ((1790 : Rat) / 762))) = 30480 / 2327 by norm_num,
      show (⌈(30480 : Rat) / 2327⌉ : Int) = 14 by norm_num [Int.ceil_eq_iff]]
    decide

/-- C3 amended: the estimator converts the houses quotient with a truncating
integer conversion — for these nonnegative quotients a floor, not the
claimed ceiling: for every published village row with positive houses and
population, target `t ≥ 0` and response rate `0 < r ≤ 1`, the result is
`⌊t / (r * (population / houses))⌋ + 2` paired with the average household
size `population / houses`. -/
theorem sampling_strategy_floor (v : String) (info : VillageInfo) (t r : Rat)
    (hv : VILLAGE_DATA v = some info) (hh : 0 < info.houses) (hpop : 0 < info.population)
    (hr : 0 < r) (hr1 : r ≤ 1) (ht : 0 ≤ t) :
    calculate_sampling_strategy v t r =
      Except.ok (⌊t / (r * ((info.population : Rat) / (info.houses : Rat)))⌋ + 2,
        (info.population : Rat) / (info.houses : Rat)) := by
  have hh' : ((info.houses : Nat) : Rat) ≠ 0 := by
    exact_mod_cast Nat.pos_iff_ne_zero.mp hh
  have hpop' : ((info.population : Nat) : Rat) ≠ 0 := by
    exact_mod_cast Nat.pos_iff_ne_zero.mp hpop
  have havg : ((info.population : Rat) / (info.houses : Rat)) ≠ 0 := div_ne_zero hpop' hh'
  have hr' : r ≠ 0 := ne_of_gt hr
  have hq : (0 : Rat) ≤ t / (r * ((info.population : Rat) / (info.houses : Rat))) :=
    div_nonneg ht (mul_nonneg hr.le
      (div_nonneg (Nat.cast_nonneg _) (Nat.cast_nonneg _)))
  simp only [calculate_sampling_strategy, hv, calc_strategy_core, if_neg hh', if_neg hr',
    if_neg havg, truncQ, div_div, if_pos hq]

/-- Witness for C3 (amended) at the Vardo row with target 20 and response
rate 0.65: the floor formula applies and evaluates to 15 houses. -/
theorem sampling_strategy_floor_witness :
    (0 : Rat) < 13 / 20 ∧ (13 / 20 : Rat) ≤ 1 ∧
    calculate_sampling_strategy "Vardo" 20 (13 / 20) = Except.ok (15, 895 / 381) := by
  refine ⟨by norm_num, by norm_num, ?_⟩
  have h := sampling_strategy_floor "Vardo" ⟨762, 1790⟩ 20 (13 / 20) rfl (by decide)
    (by decide) (by norm_num) (by norm_num) (by norm_num)
  rw [h]
  rw [show ((20 : Rat) / (13 / 20 * (((1790 : Nat) : Rat) / ((762 : Nat) : Rat))))
      = 30480 / 2327 by norm_num]
  norm_num [Int.floor_eq_iff]

/-! ### C7 -/

/-- C7 counterexample: a response rate of 1.5, outside the claimed valid
range, is accepted without any error: the estimator returns 7 houses for
Vardo instead of failing with an invalid-parameter error. -/
theorem estimator_no_validation_cex :
    (1 : Rat) < 3 / 2 ∧
    calculate_sampling_strategy "Vardo" 20 (3 / 2) = Except.ok (7, 895 / 381) := by
  refine ⟨by norm_num, ?_⟩
  norm_num [calculate_sampling_strategy, VILLAGE_DATA, calc_strategy_core, truncQ,
    Int.floor_eq_iff]

/-- C7 amended: the estimator performs no parameter validation of its own:
for every published village it returns a result for every nonzero response
rate — including rates above 1 and negative rates — and the only
response-rate failure is the interpreter's `ZeroDivisionError` at rate
exactly 0 (`houses = 0` does not occur in the published table). -/
theorem estimator_unvalidated (v : String) (info : VillageInfo) (t r : Rat)
    (hv : VILLAGE_DATA v = some info) (hr : r ≠ 0) :
    (∃ out, calculate_sampling_strategy v t r = Except.ok out) ∧
      calculate_sampling_strategy v t 0 = Except.error PyError.zeroDivisionError := by
  have hcases : info = ⟨762, 1790⟩ ∨ info = ⟨2299, 5650⟩ ∨ info = ⟨2101, 5308⟩ := by
    unfold VILLAGE_DATA at hv
    split_ifs at hv <;> simp_all
  have hh : ((info.houses : Nat) : Rat) ≠ 0 := by
    rcases hcases with h | h | h <;> subst h <;> norm_num
  have havg : ((info.population : Rat) / (info.houses : Rat)) ≠ 0 := by
    rcases hcases with h | h | h <;> subst h <;> norm_num
  constructor
  · exact ⟨(truncQ (t / r / ((info.population : Rat) / (info.houses : Rat))) + 2,
      (info.population : Rat) / (info.houses : Rat)), by
        simp only [calculate_sampling_strategy, hv, calc_strategy_core, if_neg hh,
          if_neg hr, if_neg havg]⟩
  · simp only [calculate_sampling_strategy, hv, calc_strategy_core, if_neg hh,
      eq_self_iff_true, if_true]

/-- Witness for C7 (amended) at Vardo with response rate 0.65. -/
theorem estimator_unvalidated_witness :
    ((13 / 20 : Rat) ≠ 0) ∧
    ((∃ out, calculate_sampling_strategy "Vardo" 20 (13 / 20) = Except.ok out) ∧
      calculate_sampling_strategy "Vardo" 20 0 = Except.error PyError.zeroDivisionError) :=
  ⟨by norm_num, estimator_unvalidated "Vardo" ⟨762, 1790⟩ 20 (13 / 20) rfl (by norm_num)⟩
